import Mathlib

/-!
Verification of the health-check and state-transition engine of
`monitor_multi.py` (concurrent HTTP monitoring with per-target state
persistence and transition-based alerting).

The embedding below translates the program's pure decision logic into Lean:

* `http_check` — the retry loop of `http_check` (src lines 109-126), over an
  abstract trace of per-attempt outcomes (a `requests.get` call either yields
  a response with a status code or raises a caught exception whose text is
  recorded).
* `status_text` / `classify` — the per-target transition classification
  inlined in `perform_checks` (src lines 199-222).
* `perform_checks` — the dispatch/collect/classify fold (src lines 182-251),
  with the thread pool's completion order made explicit as the `arrival`
  list (a permutation of the submitted target list).
* `load_urls`, `load_state`, `main_daemon` — the run loop and its external
  inputs (src lines 88-95, 152-167, 254-275), over abstract read outcomes.

Python-specific semantics (string truthiness, `str.startswith`, `str.strip`)
are modelled explicitly by `pyTruthy`, `startswith`, `pyStrip`.
-/

namespace Monitor

/-- Models Python's `str.startswith` on the underlying character lists:
`listStarts s p` is true when `p` is an initial segment of `s`. -/
def listStarts : List Char → List Char → Bool
  | _, [] => true
  | [], _ :: _ => false
  | a :: s, b :: p => a == b && listStarts s p

/-- Python `s.startswith(p)`. -/
def startswith (s p : String) : Bool := listStarts s.data p.data

/-- Python truthiness of `last_state.get(u)`: `None` and the empty string are
falsy, every other string is truthy. -/
def pyTruthy : Option String → Bool
  | none => false
  | some s => !(s == "")

/-- Characters removed by Python's `str.strip()` (ASCII whitespace,
`string.whitespace`). -/
def isPySpace (c : Char) : Bool :=
  c == ' ' || c == '\t' || c == '\n' || c == '\r' || c == '\x0b' || c == '\x0c'

/-- Python `s.strip()`: drop leading and trailing whitespace. -/
def pyStrip (s : String) : String :=
  ⟨((s.data.dropWhile isPySpace).reverse.dropWhile isPySpace).reverse⟩

/-- `load_urls` (src lines 88-95): a missing file logs an error and yields
`[]`; otherwise each line is stripped and blank lines and `#`-comments are
dropped.  The file content is abstracted as the list of raw lines (or `none`
when `os.path.exists` is false). -/
def load_urls (file : Option (List String)) : List String :=
  match file with
  | none => []
  | some lines =>
      (lines.map pyStrip).filter (fun l => !(l == "") && !(startswith l "#"))

/-- The result dict produced by `check_url` (src lines 170-179):
`{ok, status_code, error, ping}`. -/
structure ProbeRes where
  ok : Bool
  status_code : Nat
  error : String
  ping : Bool
deriving Repr, DecidableEq

/-- Outcome of one attempt of the `http_check` loop: `requests.get` either
returned a response carrying a status code, or raised an exception caught by
one of the two `except` clauses (`Timeout`/`ConnectionError`, or any other
`RequestException`) — both clauses have identical bodies, recording the
exception text and continuing the loop, so a single constructor models
them faithfully. -/
inductive Attempt where
  | resp (code : Nat)
  | exc (msg : String)
deriving Repr, DecidableEq

/-- True when the attempt raised a caught exception (no response seen). -/
def Attempt.isExc : Attempt → Bool
  | .resp _ => false
  | .exc _ => true

/-- The loop body of `http_check` (src lines 112-125).  `events` holds the
outcome of each remaining attempt, so the initial list has one element per
iteration of `for attempt in range(1, retries+1)` (length = retries).
Threads `last_status` and `last_err`, and counts the attempts made; returns
the `(ok, status, error)` triple together with that count. -/
def httpLoop : List Attempt → Nat → String → Nat → (Bool × Nat × String) × Nat
  | [], lastStatus, lastErr, made =>
      ((false, lastStatus, if lastErr = "" then "Unknown error" else lastErr), made)
  | .resp c :: _, _, _, made =>
      if 200 ≤ c ∧ c < 300 then ((true, c, ""), made + 1)
      else ((false, c, "HTTP " ++ toString c), made + 1)
  | .exc m :: rest, lastStatus, _, made => httpLoop rest lastStatus m (made + 1)

/-- `http_check` (src lines 109-126): the `(ok, status_code, error)` triple it
returns, given the trace of per-attempt outcomes. -/
def http_check (events : List Attempt) : Bool × Nat × String :=
  (httpLoop events 0 "" 0).1

/-- Number of `requests.get` calls `http_check` performs on the given trace. -/
def http_attempts (events : List Attempt) : Nat :=
  (httpLoop events 0 "" 0).2

/-- The `status_text` computed per result in `perform_checks` (src line 199):
`"OK: HTTP <code>"` on success, otherwise `"FAIL: "` followed by the error
text, falling back to `"HTTP <code>"` when the error text is empty
(Python `res['error'] or ('HTTP '+str(res['status_code']))`). -/
def status_text (res : ProbeRes) : String :=
  if res.ok then "OK: HTTP " ++ toString res.status_code
  else "FAIL: " ++ (if res.error = "" then "HTTP " ++ toString res.status_code else res.error)

/-- Per-target classification outcome: the state written to `updated_state`,
whether the target was appended to `failures`, and the `(prev, current)`
pair appended to `recoveries` (if any). -/
structure ClassifyOut where
  newState : String
  alert : Bool
  recovery : Option (String × String)
deriving Repr, DecidableEq

/-- The transition classification inlined in `perform_checks`
(src lines 202-222), for one target with result `res` and previous persisted
state `prev` (from `last_state.get(u)`).  `sendOnEveryFailure` is the
`SEND_ON_EVERY_FAILURE` flag (`true` = always policy, `false` =
on-transition policy). -/
def classify (res : ProbeRes) (prev : Option String) (sendOnEveryFailure : Bool) :
    ClassifyOut :=
  let st := status_text res
  if res.ok then
    { newState := "OK"
      alert := false
      recovery :=
        if pyTruthy prev && startswith (prev.getD "") "FAIL" then
          some (prev.getD "", st)
        else none }
  else
    let send_alert : Bool :=
      if sendOnEveryFailure then true
      else if !pyTruthy prev then true
      else if startswith (prev.getD "") "OK" then true
      else if startswith (prev.getD "") "FAIL" && !(prev.getD "" == st) then true
      else false
    { newState := "FAIL::" ++ st
      alert := send_alert
      recovery := none }

/-- Outcome of one worker (`fut.result()` at src line 193): either the probe
completed with a result dict, or the worker raised an unexpected exception
(`except Exception` at src line 194) whose text is recorded.  The url key
returned by a completed `check_url` equals the submitted url: `check_url`
returns `url.strip()`, and every url handed to `perform_checks` by `main`
comes from `load_urls`, which already strips each line. -/
inductive WorkerOut where
  | done (res : ProbeRes)
  | fault (msg : String)

/-- The result actually used for a target after the dispatch boundary
(src lines 192-197): the worker's result, or — on a worker fault — the
synthetic failing result `{ok: False, status_code: 0, error: str(e),
ping: False}`. -/
def collect : WorkerOut → ProbeRes
  | .done res => res
  | .fault e => ⟨false, 0, e, false⟩

/-- Result used for target `u` given the per-target worker outcomes `O`. -/
def resOf (O : String → WorkerOut) (u : String) : ProbeRes := collect (O u)

/-- Classification of target `u` in a run with worker outcomes `O`, loaded
state `ls` and policy `pol`.  Note `prev` is read from the state map loaded
at run start (`last_state.get(u)`, src line 202), never from the map being
updated. -/
def outOf (O : String → WorkerOut) (ls : String → Option String) (pol : Bool)
    (u : String) : ClassifyOut :=
  classify (resOf O u) (ls u) pol

/-- Mutable run context of `perform_checks` (src lines 183-186): the
`failures` and `recoveries` lists in append order, the `details` dict and
the `updated_state` dict (both viewed through their lookup function). -/
structure RunAcc where
  failures : List (String × String)
  recoveries : List (String × String × String)
  details : String → Option (String × Bool)
  updated : String → Option String

/-- The body of the `as_completed` loop of `perform_checks`
(src lines 190-222) for one completed target `u`. -/
def step (O : String → WorkerOut) (ls : String → Option String) (pol : Bool)
    (acc : RunAcc) (u : String) : RunAcc :=
  let res := resOf O u
  let st := status_text res
  let c := classify res (ls u) pol
  { failures := acc.failures ++ (if c.alert then [(u, st)] else [])
    recoveries :=
      acc.recoveries ++
        (match c.recovery with
         | some pr => [(u, pr.1, pr.2)]
         | none => [])
    details := fun k => if k = u then some (st, res.ping) else acc.details k
    updated := fun k => if k = u then some c.newState else acc.updated k }

/-- `perform_checks` (src lines 182-222): fold the classification over the
targets in thread-pool completion order `arrival` (a permutation of
the submitted url list), starting from `updated_state = last_state.copy()`
and empty failure/recovery/detail collections. -/
def perform_checks (arrival : List String) (O : String → WorkerOut)
    (ls : String → Option String) (pol : Bool) : RunAcc :=
  arrival.foldl (step O ls pol) ⟨[], [], fun _ => none, ls⟩

/-- The failure entry (if any) target `u` contributes to `failures`. -/
def fEntry (O : String → WorkerOut) (ls : String → Option String) (pol : Bool)
    (u : String) : List (String × String) :=
  if (outOf O ls pol u).alert then [(u, status_text (resOf O u))] else []

/-- The recovery entry (if any) target `u` contributes to `recoveries`. -/
def rEntry (O : String → WorkerOut) (ls : String → Option String) (pol : Bool)
    (u : String) : List (String × String × String) :=
  match (outOf O ls pol u).recovery with
  | some pr => [(u, pr.1, pr.2)]
  | none => []

/-- The aggregated notification of `perform_checks` (src lines 224-249): a
report is built and `send_email` called exactly under `if failures or
recoveries:`; the subject carries the two counts.  Body text is elided — the
claims concern only whether a notification is attempted. -/
def email_for (acc : RunAcc) : Option String :=
  if acc.failures.isEmpty && acc.recoveries.isEmpty then none
  else
    some ("[ALERT] Monitor: " ++ toString acc.failures.length ++ " failures, " ++
      toString acc.recoveries.length ++ " recoveries")

/-- Abstract outcome of reading the state file in `load_state`
(src lines 152-159): the file does not exist, reading or parsing raised
(caught and logged), or a mapping was parsed. -/
inductive StoreRead where
  | missing
  | raised (err : String)
  | parsed (m : List (String × String))

/-- `load_state` (src lines 152-159): a missing file falls through to
`return {}`; a raised exception is caught, logged, and falls through to
`return {}`; otherwise the parsed mapping is returned. -/
def load_state : StoreRead → List (String × String)
  | .missing => []
  | .raised _ => []
  | .parsed m => m

/-- Lookup view of a parsed state mapping. -/
def stateLookup (m : List (String × String)) : String → Option String :=
  fun k => (m.find? (fun p => p.1 == k)).map (fun p => p.2)

/-- Abstract outcome of writing the state file in `save_state`
(src lines 161-167): the write succeeded, or raised (caught and logged). -/
inductive WriteOutcome where
  | ok
  | raised (err : String)

/-- External inputs of one cycle of `main` (src lines 254-275): the raw
lines of the urls file (`none` when absent) and the per-target worker
outcomes of that cycle's dispatch. -/
structure CycleIn where
  file : Option (List String)
  outcomeOf : String → WorkerOut

/-- One `main --once` run (src lines 254-265): load urls; if the list is
empty, log and return having performed no checks; otherwise load state, run
`perform_checks` and attempt `save_state` — whose outcome `w` is caught and
logged on failure (src line 166) and so never alters the computed state or
aborts the run.  Returns the number of `perform_checks` runs executed and
the final in-memory state. -/
def run_once (first : CycleIn) (r : StoreRead) (w : WriteOutcome) (pol : Bool) :
    Nat × (String → Option String) :=
  if load_urls first.file = [] then (0, stateLookup (load_state r))
  else
    let st := (perform_checks (load_urls first.file) first.outcomeOf
      (stateLookup (load_state r)) pol).updated
    match w with
    | .ok => (1, st)
    | .raised _ => (1, st)

/-- `main` in daemon mode (src lines 254-275) over a finite prefix of
cycles: the first cycle's urls are loaded before the loop and `main` returns
immediately (process exit, "No URLs to monitor; exiting") when the list is
empty; otherwise the first run executes and then every cycle of `rest` runs
inside the `while True` loop (whose body's exceptions are caught, and which
contains no emptiness check).  Returns the number of `perform_checks` runs
executed and the final in-memory state. -/
def main_daemon (first : CycleIn) (rest : List CycleIn)
    (state0 : String → Option String) (pol : Bool) :
    Nat × (String → Option String) :=
  if load_urls first.file = [] then (0, state0)
  else
    let s1 := (perform_checks (load_urls first.file) first.outcomeOf state0 pol).updated
    rest.foldl
      (fun p c =>
        (p.1 + 1, (perform_checks (load_urls c.file) c.outcomeOf p.2 pol).updated))
      (1, s1)

/-! ### Characterization of the classification fold -/

theorem foldl_step_failures (O : String → WorkerOut) (ls : String → Option String)
    (pol : Bool) (arr : List String) (acc : RunAcc) :
    (arr.foldl (step O ls pol) acc).failures
      = acc.failures ++ arr.flatMap (fEntry O ls pol) := by
  induction arr generalizing acc with
  | nil => simp
  | cons u tl ih =>
      simp only [List.foldl_cons, List.flatMap_cons, ih]
      simp [step, fEntry, outOf]

theorem foldl_step_recoveries (O : String → WorkerOut) (ls : String → Option String)
    (pol : Bool) (arr : List String) (acc : RunAcc) :
    (arr.foldl (step O ls pol) acc).recoveries
      = acc.recoveries ++ arr.flatMap (rEntry O ls pol) := by
  induction arr generalizing acc with
  | nil => simp
  | cons u tl ih =>
      simp only [List.foldl_cons, List.flatMap_cons, ih]
      simp [step, rEntry, outOf]

theorem foldl_step_updated (O : String → WorkerOut) (ls : String → Option String)
    (pol : Bool) (arr : List String) (acc : RunAcc) (k : String) :
    (arr.foldl (step O ls pol) acc).updated k
      = if k ∈ arr then some (outOf O ls pol k).newState else acc.updated k := by
  induction arr generalizing acc with
  | nil => simp
  | cons u tl ih =>
      simp only [List.foldl_cons, ih]
      by_cases htl : k ∈ tl
      · simp [htl, List.mem_cons]
      · by_cases hu : k = u
        · subst hu
          simp [htl, step, outOf]
        · simp [htl, hu, step, List.mem_cons]

theorem perform_checks_failures (arr : List String) (O : String → WorkerOut)
    (ls : String → Option String) (pol : Bool) :
    (perform_checks arr O ls pol).failures = arr.flatMap (fEntry O ls pol) := by
  simp [perform_checks, foldl_step_failures]

theorem perform_checks_recoveries (arr : List String) (O : String → WorkerOut)
    (ls : String → Option String) (pol : Bool) :
    (perform_checks arr O ls pol).recoveries = arr.flatMap (rEntry O ls pol) := by
  simp [perform_checks, foldl_step_recoveries]

theorem perform_checks_updated (arr : List String) (O : String → WorkerOut)
    (ls : String → Option String) (pol : Bool) (k : String) :
    (perform_checks arr O ls pol).updated k
      = if k ∈ arr then some (outOf O ls pol k).newState else ls k := by
  simp [perform_checks, foldl_step_updated]

/-! ### String-level facts about the persisted state encoding -/

theorem fail_state_ne_empty (d : String) : ("FAIL::" ++ d) ≠ "" := by
  intro h
  have hd : "FAIL::".data ++ d.data = [] := by
    have h2 := congrArg String.data h
    rwa [String.data_append] at h2
  exact absurd (List.append_eq_nil.mp hd).1 (by decide)

theorem startswith_fail_append (d : String) : startswith ("FAIL::" ++ d) "FAIL" = true := rfl

theorem pyTruthy_fail_state (d : String) : pyTruthy (some ("FAIL::" ++ d)) = true := by
  simp [pyTruthy]
  exact fail_state_ne_empty d

/-- On a success, a previous state of the persisted failure form yields the
recovery pair and the new state `"OK"`. -/
theorem classify_success_after_fail (res : ProbeRes) (d : String) (pol : Bool)
    (hok : res.ok = true) :
    classify res (some ("FAIL::" ++ d)) pol =
      { newState := "OK", alert := false,
        recovery := some ("FAIL::" ++ d, status_text res) } := by
  simp [classify, hok, pyTruthy_fail_state, startswith_fail_append]

/-! ### Behaviour of the http_check retry loop -/

theorem httpLoop_resp (pre : List String) (c : Nat) (rest : List Attempt)
    (ls : Nat) (le : String) (made : Nat) :
    httpLoop (pre.map Attempt.exc ++ Attempt.resp c :: rest) ls le made =
      ((if 200 ≤ c ∧ c < 300 then (true, c, "")
        else (false, c, "HTTP " ++ toString c)), made + pre.length + 1) := by
  induction pre generalizing le made with
  | nil =>
      have h1 : httpLoop (List.map Attempt.exc [] ++ Attempt.resp c :: rest) ls le made
          = if 200 ≤ c ∧ c < 300 then ((true, c, ""), made + 1)
            else ((false, c, "HTTP " ++ toString c), made + 1) := rfl
      rw [h1]
      split <;> simp
  | cons s tl ih =>
      have h1 : httpLoop (List.map Attempt.exc (s :: tl) ++ Attempt.resp c :: rest) ls le made
          = httpLoop (List.map Attempt.exc tl ++ Attempt.resp c :: rest) ls s (made + 1) := rfl
      rw [h1, ih]
      simp only [Prod.mk.injEq, List.length_cons]
      exact ⟨trivial, by omega⟩

theorem httpLoop_exhaust (pre : List String) (m : String) (ls : Nat) (le : String)
    (made : Nat) :
    httpLoop (pre.map Attempt.exc ++ [Attempt.exc m]) ls le made =
      ((false, ls, if m = "" then "Unknown error" else m), made + pre.length + 1) := by
  induction pre generalizing le made with
  | nil => simp [httpLoop]
  | cons s tl ih =>
      have h1 : httpLoop (List.map Attempt.exc (s :: tl) ++ [Attempt.exc m]) ls le made
          = httpLoop (List.map Attempt.exc tl ++ [Attempt.exc m]) ls s (made + 1) := rfl
      rw [h1, ih]
      simp only [Prod.mk.injEq, List.length_cons]
      exact ⟨trivial, by omega⟩

theorem httpLoop_all_exc (events : List Attempt) (ls : Nat) (le : String) (made : Nat)
    (h : ∀ a ∈ events, a.isExc = true) :
    (httpLoop events ls le made).1.1 = false
    ∧ (httpLoop events ls le made).1.2.1 = ls := by
  induction events generalizing le made with
  | nil => simp [httpLoop]
  | cons a tl ih =>
      cases a with
      | resp c =>
          have hc := h (Attempt.resp c) (List.mem_cons_self _ _)
          simp [Attempt.isExc] at hc
      | exc m =>
          simpa [httpLoop] using ih m (made + 1) (fun b hb => h b (by simp [hb]))

theorem httpLoop_made_le (events : List Attempt) (ls : Nat) (le : String) (made : Nat) :
    (httpLoop events ls le made).2 ≤ made + events.length := by
  induction events generalizing le made with
  | nil => simp [httpLoop]
  | cons a tl ih =>
      cases a with
      | resp c =>
          simp only [httpLoop]
          split <;> simp [Nat.le_add_right]
      | exc m =>
          simp only [httpLoop, List.length_cons]
          have := ih m (made + 1)
          omega

/-! ### Small facts about per-target entries -/

theorem fEntry_filter_ne (O : String → WorkerOut) (ls : String → Option String)
    (pol : Bool) (u k : String) (h : u ≠ k) :
    (fEntry O ls pol u).filter (fun p => p.1 == k) = [] := by
  unfold fEntry
  split <;> simp [h]

theorem rEntry_filter_ne (O : String → WorkerOut) (ls : String → Option String)
    (pol : Bool) (u k : String) (h : u ≠ k) :
    (rEntry O ls pol u).filter (fun t => t.1 == k) = [] := by
  unfold rEntry
  split <;> simp [h]

theorem fEntry_ne_nil (O : String → WorkerOut) (ls : String → Option String)
    (pol : Bool) (u : String) :
    fEntry O ls pol u ≠ [] ↔ (outOf O ls pol u).alert = true := by
  unfold fEntry
  split <;> simp_all

theorem rEntry_ne_nil (O : String → WorkerOut) (ls : String → Option String)
    (pol : Bool) (u : String) :
    rEntry O ls pol u ≠ [] ↔ (outOf O ls pol u).recovery ≠ none := by
  unfold rEntry
  split <;> simp_all

/-! ### Helper inputs used by witnesses -/

/-- Worker outcomes in which every target probes successfully (HTTP 200). -/
def wO : String → WorkerOut := fun _ => .done ⟨true, 200, "", true⟩

/-- The empty loaded state map. -/
def wS0 : String → Option String := fun _ => none

/-! ### Claim theorems -/

/-- C1 (code_bug exhibit): under the on-transition policy
(`SEND_ON_EVERY_FAILURE = false`), a failing result whose descriptor is
unchanged from the previous run's persisted failure state is claimed to
produce no alertable failure — but the code compares the persisted state
`"FAIL::<status_text>"` against the bare `status_text` (src line 218), and
the two formats can never coincide, so the repeat failure alerts anyway.
Concretely: a first failing check with result `HTTP 500` and no prior state
persists `"FAIL::FAIL: HTTP 500"` (conjunct 1); a second identical failing
check against exactly that persisted state still sets `send_alert`
(conjunct 2, contradicting the claim) while leaving the persisted state
unchanged, i.e. no transition occurred (conjunct 3).  Under the always
policy an alert is produced as claimed (conjunct 4). -/
theorem repeated_identical_failure_still_alerts :
    (classify ⟨false, 500, "HTTP 500", false⟩ none false).newState
      = "FAIL::FAIL: HTTP 500"
    ∧ (classify ⟨false, 500, "HTTP 500", false⟩ (some "FAIL::FAIL: HTTP 500") false).alert
      = true
    ∧ (classify ⟨false, 500, "HTTP 500", false⟩ (some "FAIL::FAIL: HTTP 500") false).newState
      = "FAIL::FAIL: HTTP 500"
    ∧ (classify ⟨false, 500, "HTTP 500", false⟩ (some "FAIL::FAIL: HTTP 500") true).alert
      = true := by
  decide

/-- C3: the application-layer probe returns immediately on any HTTP
response — success for 2xx, a terminal `"HTTP <code>"` failure otherwise —
after exactly the attempts consumed so far (conjuncts 1 and 2, for a trace
of `pre.length` caught connection-level errors followed by a response);
retries continue only across caught request errors, and when every attempt
errors, the result is a failure carrying status 0 and the LAST attempt's
error text (or `"Unknown error"` when that text is empty), with exactly the
configured number of attempts — the full length of the attempt trace —
made (conjuncts 3 and 4); the attempt count never exceeds the configured
limit (conjunct 5). -/
theorem http_check_retry_policy
    (pre : List String) (c : Nat) (rest : List Attempt) (m : String)
    (events : List Attempt) :
    (http_check (pre.map Attempt.exc ++ Attempt.resp c :: rest)
      = if 200 ≤ c ∧ c < 300 then (true, c, "")
        else (false, c, "HTTP " ++ toString c))
    ∧ http_attempts (pre.map Attempt.exc ++ Attempt.resp c :: rest) = pre.length + 1
    ∧ (http_check (pre.map Attempt.exc ++ [Attempt.exc m])
      = (false, 0, if m = "" then "Unknown error" else m))
    ∧ http_attempts (pre.map Attempt.exc ++ [Attempt.exc m])
      = (pre.map Attempt.exc ++ [Attempt.exc m]).length
    ∧ http_attempts events ≤ events.length := by
  refine ⟨?_, ?_, ?_, ?_, ?_⟩
  · rw [http_check, httpLoop_resp]
  · rw [http_attempts, httpLoop_resp]
    omega
  · rw [http_check, httpLoop_exhaust]
  · rw [http_attempts, httpLoop_exhaust]
    simp
  · have := httpLoop_made_le events 0 "" 0
    rw [http_attempts]
    omega

/-- C10: when the probe exhausts all attempts (every attempt in the trace
raised a caught error, so the loop falls through), the returned status code
is 0 and the result is failing — `last_status` is only ever set on a branch
that returns immediately, so it is still 0 on the fall-through path. -/
theorem exhausted_http_check_status_zero
    (events : List Attempt) (h : ∀ a ∈ events, a.isExc = true) :
    (http_check events).2.1 = 0 ∧ (http_check events).1 = false := by
  have hx := httpLoop_all_exc events 0 "" 0 h
  exact ⟨hx.2, hx.1⟩

/-- C10 witness: a two-attempt trace of connection errors yields status 0. -/
theorem exhausted_http_check_status_zero_witness :
    (http_check [Attempt.exc "timed out", Attempt.exc "refused"]).2.1 = 0
    ∧ (http_check [Attempt.exc "timed out", Attempt.exc "refused"]).1 = false :=
  exhausted_http_check_status_zero [Attempt.exc "timed out", Attempt.exc "refused"]
    (by decide)

/-- C2: in any run, a target whose probe succeeds and whose loaded state is
a persisted failure state `"FAIL::<d>"` gets a recovery entry recorded and
its new persisted state is `"OK"`, regardless of the alert policy; a
succeeding target whose loaded state is absent or `"OK"` gets no recovery
entry (and its new state is also `"OK"`). -/
theorem recovery_on_success_after_failure
    (arr : List String) (O : String → WorkerOut) (ls : String → Option String)
    (pol : Bool) (u d : String)
    (hmem : u ∈ arr) (hok : (resOf O u).ok = true) :
    (ls u = some ("FAIL::" ++ d) →
      ((u, ("FAIL::" ++ d, status_text (resOf O u)))
          ∈ (perform_checks arr O ls pol).recoveries
        ∧ (perform_checks arr O ls pol).updated u = some "OK"))
    ∧ ((ls u = none ∨ ls u = some "OK") →
      ((perform_checks arr O ls pol).recoveries.filter (fun t => t.1 == u) = []
        ∧ (perform_checks arr O ls pol).updated u = some "OK")) := by
  constructor
  · intro hprev
    constructor
    · rw [perform_checks_recoveries]
      refine List.mem_flatMap_of_mem hmem ?_
      simp [rEntry, outOf, hprev, classify_success_after_fail _ _ _ hok]
    · rw [perform_checks_updated]
      simp [hmem, outOf, hprev, classify_success_after_fail _ _ _ hok]
  · intro hprev
    have hout : (outOf O ls pol u).recovery = none ∧ (outOf O ls pol u).newState = "OK" := by
      rcases hprev with hprev | hprev <;>
        simp [outOf, hprev, classify, hok, pyTruthy, startswith, listStarts]
    constructor
    · rw [perform_checks_recoveries, List.filter_flatMap]
      refine List.flatMap_eq_nil_iff.mpr (fun v hv => ?_)
      by_cases hvu : v = u
      · subst hvu
        simp [rEntry, hout.1]
      · exact rEntry_filter_ne O ls pol v u hvu
    · rw [perform_checks_updated]
      simp [hmem, hout.2]

/-- Loaded state for the C2 witness: target `"t"` was failing. -/
def wSFail : String → Option String :=
  fun v => if v = "t" then some "FAIL::down" else none

/-- C2 witness: one target `"t"` succeeding with prior persisted state
`"FAIL::down"` yields its recovery entry and new state `"OK"`. -/
theorem recovery_on_success_after_failure_witness :
    ("t", ("FAIL::" ++ "down", status_text (resOf wO "t")))
        ∈ (perform_checks ["t"] wO wSFail false).recoveries
    ∧ (perform_checks ["t"] wO wSFail false).updated "t" = some "OK" :=
  (recovery_on_success_after_failure ["t"] wO wSFail false "t" "down"
    (by decide) (by decide)).1 (by decide)

/-- C4: each target's classification reads only its own collected result
and its entry in the state map loaded at run start (conjunct 4), so any two
completion orders that are permutations of each other give permuted (hence
set-equal) failure and recovery lists and an identical final state map
(conjuncts 1-3).  A pool of width 1 delivers one such order and a pool of
width N another, so both yield the same classification outcomes. -/
theorem perform_checks_order_insensitive
    (arr1 arr2 : List String) (O : String → WorkerOut) (ls : String → Option String)
    (pol : Bool) (k : String) (hperm : arr1.Perm arr2) :
    (perform_checks arr1 O ls pol).failures.Perm (perform_checks arr2 O ls pol).failures
    ∧ (perform_checks arr1 O ls pol).recoveries.Perm
        (perform_checks arr2 O ls pol).recoveries
    ∧ (perform_checks arr1 O ls pol).updated k = (perform_checks arr2 O ls pol).updated k
    ∧ (k ∈ arr1 →
        (perform_checks arr1 O ls pol).updated k
          = some (classify (resOf O k) (ls k) pol).newState) := by
  refine ⟨?_, ?_, ?_, ?_⟩
  · rw [perform_checks_failures, perform_checks_failures]
    exact hperm.flatMap_right _
  · rw [perform_checks_recoveries, perform_checks_recoveries]
    exact hperm.flatMap_right _
  · rw [perform_checks_updated, perform_checks_updated]
    by_cases h : k ∈ arr1
    · rw [if_pos h, if_pos (hperm.mem_iff.mp h)]
    · rw [if_neg h, if_neg (fun hc => h (hperm.mem_iff.mpr hc))]
  · intro hk
    rw [perform_checks_updated]
    simp [hk, outOf]

/-- C4 witness: the two completion orders of targets `"a"`, `"b"`. -/
theorem perform_checks_order_insensitive_witness :
    (perform_checks ["a", "b"] wO wS0 false).failures.Perm
      (perform_checks ["b", "a"] wO wS0 false).failures
    ∧ (perform_checks ["a", "b"] wO wS0 false).recoveries.Perm
        (perform_checks ["b", "a"] wO wS0 false).recoveries
    ∧ (perform_checks ["a", "b"] wO wS0 false).updated "a"
        = (perform_checks ["b", "a"] wO wS0 false).updated "a"
    ∧ (perform_checks ["a", "b"] wO wS0 false).updated "a"
        = some (classify (resOf wO "a") (wS0 "a") false).newState :=
  ⟨(perform_checks_order_insensitive ["a", "b"] ["b", "a"] wO wS0 false "a"
      (by decide)).1,
   (perform_checks_order_insensitive ["a", "b"] ["b", "a"] wO wS0 false "a"
      (by decide)).2.1,
   (perform_checks_order_insensitive ["a", "b"] ["b", "a"] wO wS0 false "a"
      (by decide)).2.2.1,
   (perform_checks_order_insensitive ["a", "b"] ["b", "a"] wO wS0 false "a"
      (by decide)).2.2.2 (by decide)⟩

/-- C5: after one run the returned state map has an entry exactly for the
keys of the loaded map together with the targets checked in the run, and a
key not among the run's targets keeps the exact loaded value. -/
theorem perform_checks_state_keys
    (arr : List String) (O : String → WorkerOut) (ls : String → Option String)
    (pol : Bool) (k : String) :
    (k ∉ arr → (perform_checks arr O ls pol).updated k = ls k)
    ∧ ((∃ v, (perform_checks arr O ls pol).updated k = some v)
        ↔ (∃ v, ls k = some v) ∨ k ∈ arr) := by
  constructor
  · intro h
    rw [perform_checks_updated]
    simp [h]
  · rw [perform_checks_updated]
    by_cases h : k ∈ arr <;> simp [h]

/-- C5 witness: a run over target `"u"` with an empty loaded map, at the
untouched key `"w"` and at the checked key `"u"`. -/
theorem perform_checks_state_keys_witness :
    (perform_checks ["u"] wO wS0 false).updated "w" = wS0 "w"
    ∧ ((∃ v, (perform_checks ["u"] wO wS0 false).updated "u" = some v)
        ↔ (∃ v, wS0 "u" = some v) ∨ "u" ∈ ["u"]) :=
  ⟨(perform_checks_state_keys ["u"] wO wS0 false "w").1 (by decide),
   (perform_checks_state_keys ["u"] wO wS0 false "u").2⟩

/-- C6: an unexpected worker exception is converted at the dispatch
boundary into the synthetic failing result
`{ok: false, status_code: 0, error: e, ping: false}` (conjunct 1), and the
run's outcome at every other target is unaffected: if two runs' worker
outcomes agree everywhere except at target `u`, then at any key `k ≠ u` the
final state, the per-key details entry, and the failure and recovery
entries keyed `k` coincide (conjuncts 2-5) — in particular the run never
aborts: every other in-flight target is still classified. -/
theorem worker_fault_isolated
    (arr : List String) (O1 O2 : String → WorkerOut) (ls : String → Option String)
    (pol : Bool) (u k e : String)
    (hagree : ∀ v, v ≠ u → O1 v = O2 v) (hk : k ≠ u) :
    collect (WorkerOut.fault e) = ⟨false, 0, e, false⟩
    ∧ (perform_checks arr O1 ls pol).updated k = (perform_checks arr O2 ls pol).updated k
    ∧ (perform_checks arr O1 ls pol).failures.filter (fun p => p.1 == k)
        = (perform_checks arr O2 ls pol).failures.filter (fun p => p.1 == k)
    ∧ (perform_checks arr O1 ls pol).recoveries.filter (fun t => t.1 == k)
        = (perform_checks arr O2 ls pol).recoveries.filter (fun t => t.1 == k) := by
  have hOk : O1 k = O2 k := hagree k hk
  refine ⟨rfl, ?_, ?_, ?_⟩
  · rw [perform_checks_updated, perform_checks_updated]
    simp [outOf, resOf, hOk]
  · rw [perform_checks_failures, perform_checks_failures,
      List.filter_flatMap, List.filter_flatMap]
    refine List.flatMap_congr (fun v hv => ?_)
    by_cases hvu : v = u
    · subst hvu
      rw [fEntry_filter_ne O1 ls pol v k (Ne.symm hk),
        fEntry_filter_ne O2 ls pol v k (Ne.symm hk)]
    · rw [show fEntry O1 ls pol v = fEntry O2 ls pol v by
        simp [fEntry, outOf, resOf, hagree v hvu]]
  · rw [perform_checks_recoveries, perform_checks_recoveries,
      List.filter_flatMap, List.filter_flatMap]
    refine List.flatMap_congr (fun v hv => ?_)
    by_cases hvu : v = u
    · subst hvu
      rw [rEntry_filter_ne O1 ls pol v k (Ne.symm hk),
        rEntry_filter_ne O2 ls pol v k (Ne.symm hk)]
    · rw [show rEntry O1 ls pol v = rEntry O2 ls pol v by
        simp [rEntry, outOf, resOf, hagree v hvu]]

/-- Worker outcomes for the C6 witness: target `"t"` raises an unexpected
exception, every other target probes successfully. -/
def wOFault : String → WorkerOut :=
  fun v => if v = "t" then .fault "boom" else wO v

/-- C6 witness: targets `"t"` (faulting in the second run) and `"s"`,
observed at key `"s"`. -/
theorem worker_fault_isolated_witness :
    collect (WorkerOut.fault "boom") = ⟨false, 0, "boom", false⟩
    ∧ (perform_checks ["t", "s"] wO wS0 false).updated "s"
        = (perform_checks ["t", "s"] wOFault wS0 false).updated "s"
    ∧ (perform_checks ["t", "s"] wO wS0 false).failures.filter (fun p => p.1 == "s")
        = (perform_checks ["t", "s"] wOFault wS0 false).failures.filter
            (fun p => p.1 == "s")
    ∧ (perform_checks ["t", "s"] wO wS0 false).recoveries.filter (fun t => t.1 == "s")
        = (perform_checks ["t", "s"] wOFault wS0 false).recoveries.filter
            (fun t => t.1 == "s") :=
  worker_fault_isolated ["t", "s"] wO wOFault wS0 false "t" "s" "boom"
    (fun v hv => by simp [wOFault, hv]) (by decide)

/-- Counting of `perform_checks` runs by the daemon loop fold. -/
theorem foldl_cycle_count (pol : Bool) (l : List CycleIn) (n : Nat)
    (s : String → Option String) :
    (l.foldl
      (fun p c =>
        (p.1 + 1, (perform_checks (load_urls c.file) c.outcomeOf p.2 pol).updated))
      (n, s)).1 = n + l.length := by
  induction l generalizing n s with
  | nil => simp
  | cons c tl ih =>
      simp only [List.foldl_cons, ih, List.length_cons]
      omega

/-- First cycle of the C7 counterexample: the urls file is absent. -/
def cEmpty : CycleIn := ⟨none, wO⟩

/-- Later cycle of the C7 counterexample: one healthy target. -/
def cGood : CycleIn := ⟨some ["http://x"], wO⟩

/-- C7 counterexample: in continuous mode, an absent target source at the
first cycle does NOT merely abort that cycle — `main` returns ("No URLs to
monitor; exiting", src lines 256-258) before entering the loop, terminating
the process.  With an absent source first and a well-formed later cycle,
zero `perform_checks` runs execute and the later cycle's target is never
recorded in the state, refuting "the loop continues to the next scheduled
iteration rather than the process terminating". -/
theorem empty_first_cycle_terminates_daemon :
    (main_daemon cEmpty [cGood] wS0 false).1 = 0
    ∧ (main_daemon cEmpty [cGood] wS0 false).2 "http://x" = none := by
  constructor <;> rfl

/-- C7 (amended): an absent or empty target source at the FIRST cycle
terminates the process with no checks performed (conjunct 1); when the first
cycle has targets, the loop runs every subsequent cycle — it never
terminates early (conjunct 2); and a loop cycle whose source is absent or
empty checks no targets: it leaves the state untouched and produces no
failure or recovery entries (conjuncts 3-5).  (Inside the loop the code runs
`perform_checks` on the empty list rather than skipping, which is
observationally the claimed skip.) -/
theorem target_source_absence_behavior
    (first : CycleIn) (rest : List CycleIn) (state0 : String → Option String)
    (pol : Bool) (c : CycleIn) (s : String → Option String) (k : String) :
    (load_urls first.file = [] → main_daemon first rest state0 pol = (0, state0))
    ∧ (load_urls first.file ≠ [] →
        (main_daemon first rest state0 pol).1 = 1 + rest.length)
    ∧ (load_urls c.file = [] →
        ((perform_checks (load_urls c.file) c.outcomeOf s pol).updated k = s k
          ∧ (perform_checks (load_urls c.file) c.outcomeOf s pol).failures = []
          ∧ (perform_checks (load_urls c.file) c.outcomeOf s pol).recoveries = [])) := by
  refine ⟨?_, ?_, ?_⟩
  · intro h
    simp [main_daemon, h]
  · intro h
    rw [main_daemon, if_neg h]
    exact foldl_cycle_count pol rest 1 _
  · intro h
    rw [h]
    exact ⟨rfl, rfl, rfl⟩

/-- C7 amended-claim witness: the three conjuncts instantiated — an absent
first source (zero runs), a healthy first source followed by one more cycle
(two runs), and an empty in-loop cycle (state untouched, no entries). -/
theorem target_source_absence_behavior_witness :
    (main_daemon cEmpty [] wS0 false = (0, wS0))
    ∧ (main_daemon cGood [cGood] wS0 false).1 = 1 + [cGood].length
    ∧ ((perform_checks (load_urls cEmpty.file) cEmpty.outcomeOf wS0 false).updated "u"
          = wS0 "u"
        ∧ (perform_checks (load_urls cEmpty.file) cEmpty.outcomeOf wS0 false).failures = []
        ∧ (perform_checks (load_urls cEmpty.file) cEmpty.outcomeOf wS0 false).recoveries
          = []) :=
  ⟨(target_source_absence_behavior cEmpty [] wS0 false cEmpty wS0 "u").1 (by decide),
   (target_source_absence_behavior cGood [cGood] wS0 false cEmpty wS0 "u").2.1 (by decide),
   (target_source_absence_behavior cGood [] wS0 false cEmpty wS0 "u").2.2 (by decide)⟩

/-- C8: loading the persisted state from a missing store or from a store
whose read or parse raised (the exception is caught and logged) yields the
empty map, while a parsed store is returned as-is (conjuncts 1-3); all four
functions are total, so loading never raises.  A failed state write is
caught and logged inside `save_state` and nothing downstream depends on it:
the run's outcome is identical for any write outcome (conjunct 4). -/
theorem state_persistence_fault_tolerance
    (e : String) (m : List (String × String)) (first : CycleIn) (r : StoreRead)
    (w1 w2 : WriteOutcome) (pol : Bool) :
    load_state StoreRead.missing = []
    ∧ load_state (StoreRead.raised e) = []
    ∧ load_state (StoreRead.parsed m) = m
    ∧ run_once first r w1 pol = run_once first r w2 pol := by
  refine ⟨rfl, rfl, rfl, ?_⟩
  unfold run_once
  cases w1 <;> cases w2 <;> rfl

/-- C9: a report is built and a notification attempted exactly when the run
produced at least one alertable failure entry or at least one recovery
entry — equivalently, when some checked target's classification raised an
alert or recorded a recovery; with neither, no notification is attempted. -/
theorem report_iff_failures_or_recoveries
    (arr : List String) (O : String → WorkerOut) (ls : String → Option String)
    (pol : Bool) :
    (email_for (perform_checks arr O ls pol) = none
      ↔ ((perform_checks arr O ls pol).failures = []
        ∧ (perform_checks arr O ls pol).recoveries = []))
    ∧ ((∃ s, email_for (perform_checks arr O ls pol) = some s)
      ↔ ((∃ u ∈ arr, (outOf O ls pol u).alert = true)
        ∨ (∃ u ∈ arr, (outOf O ls pol u).recovery ≠ none))) := by
  have hnone : email_for (perform_checks arr O ls pol) = none
      ↔ ((perform_checks arr O ls pol).failures = []
        ∧ (perform_checks arr O ls pol).recoveries = []) := by
    unfold email_for
    split <;> rename_i hsplit
    · simp only [Bool.and_eq_true, List.isEmpty_iff] at hsplit
      simp [hsplit]
    · simp only [Bool.and_eq_true, List.isEmpty_iff] at hsplit
      simp [hsplit]
  refine ⟨hnone, ?_⟩
  rw [← Option.ne_none_iff_exists']
  rw [ne_eq, hnone]
  rw [perform_checks_failures, perform_checks_recoveries]
  rw [not_and_or]
  constructor
  · intro h
    rcases h with h | h
    · left
      have hne : ¬ ∀ u ∈ arr, fEntry O ls pol u = [] :=
        fun hall => h (List.flatMap_eq_nil_iff.mpr hall)
      push_neg at hne
      rcases hne with ⟨u, hu, hune⟩
      exact ⟨u, hu, (fEntry_ne_nil O ls pol u).mp hune⟩
    · right
      have hne : ¬ ∀ u ∈ arr, rEntry O ls pol u = [] :=
        fun hall => h (List.flatMap_eq_nil_iff.mpr hall)
      push_neg at hne
      rcases hne with ⟨u, hu, hune⟩
      exact ⟨u, hu, (rEntry_ne_nil O ls pol u).mp hune⟩
  · intro h
    rcases h with ⟨u, hu, halert⟩ | ⟨u, hu, hrec⟩
    · left
      intro hnil
      have := List.flatMap_eq_nil_iff.mp hnil u hu
      exact ((fEntry_ne_nil O ls pol u).mpr halert) this
    · right
      intro hnil
      have := List.flatMap_eq_nil_iff.mp hnil u hu
      exact ((rEntry_ne_nil O ls pol u).mpr hrec) this

end Monitor
